import Mathlib

/-!
# HAR Performance Analyzer — verification of the timing-extraction pipeline

Shallow embedding of the reproducible core of `src/app.py` (current variant)
and, where cited, `src/app_old.py`: HAR loading, timing extraction with
sentinel handling, device classification from the User-Agent header,
per-device mean aggregation, comparison diffs/verdicts/ratio, and the
performance score.  Durations and timestamps are modelled as rationals
(milliseconds); Python `None` / pandas `NaN` cells are modelled as `Option`;
Python exceptions are modelled as `Except` errors.
-/

set_option autoImplicit false

namespace HARApp


/-- Character-list version of Python's startswith test used below. -/
def charsStartWith : List Char → List Char → Bool
  | [], _ => true
  | _ :: _, [] => false
  | a :: as, b :: bs => a == b && charsStartWith as bs

/-- Substring containment on character lists (Python's `needle in hay`). -/
def charsHaveSub (needle : List Char) : List Char → Bool
  | [] => charsStartWith needle []
  | c :: cs => charsStartWith needle (c :: cs) || charsHaveSub needle cs

/-- Python's `needle in hay` substring test on strings. -/
def strHasSub (hay needle : String) : Bool :=
  charsHaveSub needle.data hay.data

/-- The `timings` sub-record of a HAR entry.  `none` models a missing key of
the Python dict (`timings.get(key, 0)` then supplies the default `0`);
negative numbers model the HAR `-1` reuse sentinel. -/
structure Timings where
  dns : Option ℚ
  connect : Option ℚ
  ssl : Option ℚ
  wait : Option ℚ
  receive : Option ℚ
  deriving DecidableEq, Repr

/-- `timings.get(key, 0)`: dictionary lookup with default `0`. -/
def tget (o : Option ℚ) : ℚ := o.getD 0

/-- One HAR `log.entries` element, restricted to the fields `extract_metrics`
reads.  `startedDateTime` is the start timestamp on a rational timeline
(milliseconds); `time` is the entry-reported total elapsed time. -/
structure RawEntry where
  url : String
  headers : List (String × String)
  startedDateTime : ℚ
  time : ℚ
  timings : Timings
  deriving DecidableEq, Repr

/-- One row of the DataFrame built by `extract_metrics`, together with the
derived `end_time` column added right after construction
(`df["end_time"] = df["startedDateTime"] + pd.to_timedelta(df["total"], unit='ms')`).
`none` in `dns`/`connect`/`ssl` models the Python `None` (pandas `NaN`). -/
structure TimingRecord where
  url : String
  device : String
  dns : Option ℚ
  connect : Option ℚ
  ssl : Option ℚ
  ttfb : ℚ
  receive : ℚ
  total : ℚ
  startedDateTime : ℚ
  dns_reused : Bool
  conn_reused : Bool
  ssl_reused : Bool
  end_time : ℚ
  deriving DecidableEq, Repr

/-- Python's `str.lower()` on a header name, character by character. -/
def lowerStr (s : String) : String :=
  ⟨s.data.map Char.toLower⟩

/-- The User-Agent lookup loop of `extract_metrics`:
`user_agent = ""`, then the first header whose lowercased name equals
`"user-agent"` sets it and breaks. -/
def userAgentOf : List (String × String) → String
  | [] => ""
  | (n, v) :: hs => if lowerStr n == "user-agent" then v else userAgentOf hs

/-- `device_type = "Mobile" if "Mobile" in user_agent or "Android" in user_agent
else "Desktop"`. -/
def deviceTypeOf (ua : String) : String :=
  if strHasSub ua "Mobile" || strHasSub ua "Android" then "Mobile" else "Desktop"

/-- The body of the `for e in entries` loop of `extract_metrics` in
`src/app.py`, producing one row, plus the `end_time` column. -/
def extractRecord (e : RawEntry) : TimingRecord :=
  let ua := userAgentOf e.headers
  { url := (e.url.splitOn "?").headD e.url
    device := deviceTypeOf ua
    dns := if tget e.timings.dns < 0 then none else some (tget e.timings.dns)
    connect := if tget e.timings.connect < 0 then none else some (tget e.timings.connect)
    ssl := if tget e.timings.ssl < 0 then none else some (tget e.timings.ssl)
    ttfb := max (tget e.timings.wait) 0
    receive := max (tget e.timings.receive) 0
    total := e.time
    startedDateTime := e.startedDateTime
    dns_reused := decide (tget e.timings.dns < 0)
    conn_reused := decide (tget e.timings.connect < 0)
    ssl_reused := decide (tget e.timings.ssl < 0)
    end_time := e.startedDateTime + e.time }

/-- `extract_metrics` of `src/app.py`: one row per entry, input order kept. -/
def extract_metrics (es : List RawEntry) : List TimingRecord :=
  es.map extractRecord

/-- The five raw timing components that `extract_metrics` reads from the
`timings` dict and normalizes (the `wait` phase is the `ttfb` column). -/
inductive TComp where
  | dns
  | connect
  | ssl
  | wait
  | receive
  deriving DecidableEq, Repr

/-- The raw value of a timing component as the code reads it
(`timings.get(c, 0)`). -/
def rawTiming (e : RawEntry) : TComp → ℚ
  | .dns => tget e.timings.dns
  | .connect => tget e.timings.connect
  | .ssl => tget e.timings.ssl
  | .wait => tget e.timings.wait
  | .receive => tget e.timings.receive

/-- The normalized value of a timing component in the extracted row:
`none` when the row marks it absent, otherwise the stored number.  The
`ttfb` and `receive` columns are plain numbers, hence always present. -/
def extractedTiming (e : RawEntry) : TComp → Option ℚ
  | .dns => (extractRecord e).dns
  | .connect => (extractRecord e).connect
  | .ssl => (extractRecord e).ssl
  | .wait => some (extractRecord e).ttfb
  | .receive => some (extractRecord e).receive

/-- The clamp sentinel policy, applied to a whole run: every negative raw
timing value comes out as the present number `0`. -/
def clampPolicyRun (es : List RawEntry) : Prop :=
  ∀ e ∈ es, ∀ c : TComp, rawTiming e c < 0 → extractedTiming e c = some 0

/-- The absent sentinel policy, applied to a whole run: every negative raw
timing value comes out marked absent (excluded from averaging). -/
def absentPolicyRun (es : List RawEntry) : Prop :=
  ∀ e ∈ es, ∀ c : TComp, rawTiming e c < 0 → extractedTiming e c = none

/-- One sentinel policy applied consistently to all timing components of one
run, as the spec requires. -/
def singlePolicyRun (es : List RawEntry) : Prop :=
  clampPolicyRun es ∨ absentPolicyRun es

/-- A HAR entry whose `dns` phase and `wait` phase both carry the `-1`
reuse sentinel. -/
def eMixed : RawEntry :=
  { url := "https://example.com/a"
    headers := []
    startedDateTime := 0
    time := 10
    timings := { dns := some (-1), connect := some 3, ssl := some 2,
                 wait := some (-1), receive := some 4 } }

/-- The six numeric columns the aggregation and comparison code iterates over
(`["dns", "connect", "ssl", "ttfb", "receive", "total"]`). -/
inductive Col where
  | dns
  | connect
  | ssl
  | ttfb
  | receive
  | total
  deriving DecidableEq, Repr

/-- The iteration order of the comparison loop in `describe_comparison`. -/
def allCols : List Col :=
  [Col.dns, Col.connect, Col.ssl, Col.ttfb, Col.receive, Col.total]

/-- One row of `df.groupby("device").mean(numeric_only=True)` (also of
`avg_df`): the per-column means of one group.  `none` models the `NaN` a
pandas mean yields when every cell of the column is `NaN` (and the lookup of
a column in a missing group). -/
structure AggRow where
  dns : Option ℚ
  connect : Option ℚ
  ssl : Option ℚ
  ttfb : Option ℚ
  receive : Option ℚ
  total : Option ℚ
  deriving DecidableEq, Repr

/-- A column of an aggregate row. -/
def colVal (c : Col) (r : AggRow) : Option ℚ :=
  match c with
  | .dns => r.dns
  | .connect => r.connect
  | .ssl => r.ssl
  | .ttfb => r.ttfb
  | .receive => r.receive
  | .total => r.total

/-- A column of a timing record, as the pandas column cell: the
`dns`/`connect`/`ssl` cells may be `NaN` (`none`), the rest are numbers. -/
def recCol (c : Col) (r : TimingRecord) : Option ℚ :=
  match c with
  | .dns => r.dns
  | .connect => r.connect
  | .ssl => r.ssl
  | .ttfb => some r.ttfb
  | .receive => some r.receive
  | .total => some r.total

/-- The pandas column mean: `NaN` cells are dropped, and the mean of the
remaining cells is taken; an all-`NaN` (or empty) column averages to `NaN`. -/
def meanOpt (cells : List (Option ℚ)) : Option ℚ :=
  let p := cells.filterMap id
  if p.length = 0 then none else some (p.sum / (p.length : ℚ))

/-- The group of rows of one device inside the frame. -/
def deviceGroup (df : List TimingRecord) (dev : String) : List TimingRecord :=
  df.filter (fun r => r.device == dev)

/-- One row of `summary = df.groupby("device").mean(numeric_only=True)` for a
given device key: each column averaged with `NaN` cells dropped. -/
def summaryFor (df : List TimingRecord) (dev : String) : AggRow :=
  { dns := meanOpt ((deviceGroup df dev).map (fun r => r.dns))
    connect := meanOpt ((deviceGroup df dev).map (fun r => r.connect))
    ssl := meanOpt ((deviceGroup df dev).map (fun r => r.ssl))
    ttfb := meanOpt ((deviceGroup df dev).map (fun r => some r.ttfb))
    receive := meanOpt ((deviceGroup df dev).map (fun r => some r.receive))
    total := meanOpt ((deviceGroup df dev).map (fun r => some r.total)) }

/-- The verdict of the comparison loop of `describe_comparison`:
`faster = "Mobile" if diff > 0 else "Desktop"` where `diff = d_val - m_val`. -/
def verdictOfDiff (diff : ℚ) : String :=
  if diff > 0 then "Mobile" else "Desktop"

/-- The per-column signed difference of `describe_comparison`:
`diff = d_val - m_val`, skipped (`continue`) when either side is `NaN`. -/
def diffOf (desktop mobile : AggRow) (c : Col) : Option ℚ :=
  match colVal c desktop, colVal c mobile with
  | some d, some m => some (d - m)
  | _, _ => none

/-- `ratio = desktop["total"] / mobile["total"] if mobile["total"] > 0 else
np.nan` — `none` models `np.nan`. -/
def ratioOf (desktop mobile : AggRow) : Option ℚ :=
  match desktop.total, mobile.total with
  | some d, some m => if m > 0 then some (d / m) else none
  | _, _ => none

/-- The data computed by the body of `describe_comparison` once both device
groups exist: the overall ratio and, in loop order, one
`(column, diff, faster-device verdict)` line per column present on both
sides. -/
def describeCore (desktop mobile : AggRow) : Option ℚ × List (Col × ℚ × String) :=
  (ratioOf desktop mobile,
   allCols.filterMap (fun c =>
     (diffOf desktop mobile c).map (fun d => (c, d, verdictOfDiff d))))

/-- `avg_total = df["total"].mean()` of `performance_score`. -/
def meanTotal (df : List TimingRecord) : ℚ :=
  (df.map (fun r => r.total)).sum / ((df.length : ℚ))

/-- The threshold chain of `performance_score` applied to the mean total. -/
def scoreOf (avg_total : ℚ) : ℕ × String :=
  if avg_total ≤ 300 then (95, "A")
  else if avg_total ≤ 600 then (85, "B")
  else if avg_total ≤ 1000 then (70, "C")
  else if avg_total ≤ 2000 then (55, "D")
  else (40, "E")

/-- `performance_score` of `src/app.py`: grade the mean of the `total`
column. -/
def performance_score (df : List TimingRecord) : ℕ × String :=
  scoreOf (meanTotal df)

/-- A parsed JSON document, as `json.load` returns it. -/
inductive Json where
  | jnull
  | jbool (b : Bool)
  | jnum (q : ℚ)
  | jstr (s : String)
  | jarr (elems : List Json)
  | jobj (fields : List (String × Json))

/-- Python dictionary subscript `j[k]` on a parsed JSON value: the value of
the key when `j` is an object holding it, otherwise an exception
(`KeyError` on a missing key, `TypeError` on a non-dict), modelled as
`none`. -/
def objGet : Json → String → Option Json
  | .jobj fields, k => (fields.find? (fun p => p.1 == k)).map (fun p => p.2)
  | _, _ => none

/-- The value at the `log.entries` path of a document, when present. -/
def logEntriesPath (j : Json) : Option Json :=
  (objGet j "log").bind (fun lg => objGet lg "entries")

/-- The HAR loading step shared by `src/app.py` (`json.load(uploaded_file)`
then `har_data["log"]["entries"]`) and `src/app_old.py` (`parse_har`):
the input is `none` when the byte stream is not valid JSON (a
`json.JSONDecodeError`), and each failing dictionary subscript raises,
modelled as `Except.error`.  On success the value found at `log.entries` is
returned unmodified. -/
def loadHar (input : Option Json) : Except Unit Json :=
  match input with
  | none => .error ()
  | some j =>
    match objGet j "log" with
    | none => .error ()
    | some lg =>
      match objGet lg "entries" with
      | none => .error ()
      | some es => .ok es

/-- An entry whose reported total elapsed time is the `-1` sentinel. -/
def eNegTotal : RawEntry :=
  { url := "https://example.com/b"
    headers := []
    startedDateTime := 5
    time := -1
    timings := { dns := none, connect := none, ssl := none,
                 wait := none, receive := none } }

/-- An entry with non-negative timings throughout and a reused connect
phase. -/
def eClean : RawEntry :=
  { url := "https://example.com/c?x=1"
    headers := [("User-Agent", "Mozilla/5.0 (X11; Linux x86_64)")]
    startedDateTime := 100
    time := 7
    timings := { dns := some 1, connect := some (-1), ssl := none,
                 wait := some 2, receive := some 3 } }

/-- Aggregate rows with every column equal on both sides, and a pair that
makes the Desktop side strictly faster on dns. -/
def aggEq : AggRow :=
  { dns := some 10, connect := some 20, ssl := some 30,
    ttfb := some 40, receive := some 50, total := some 60 }

/-- The same aggregate row with a slower dns mean on the Mobile side. -/
def aggEq2 : AggRow := { aggEq with dns := some 20 }

/-- An entry whose dns phase took 10 ms. -/
def eDnsTen : RawEntry :=
  { url := "https://example.com/p"
    headers := []
    startedDateTime := 0
    time := 30
    timings := { dns := some 10, connect := some 1, ssl := some 1,
                 wait := some 1, receive := some 1 } }

/-- An entry whose dns phase carries the `-1` reuse sentinel. -/
def eDnsReused : RawEntry :=
  { url := "https://example.com/q"
    headers := []
    startedDateTime := 0
    time := 20
    timings := { dns := some (-1), connect := some 1, ssl := some 1,
                 wait := some 1, receive := some 1 } }

/-- A Desktop aggregate row and a Mobile aggregate row whose mean total
is 0. -/
def aggD : AggRow :=
  { dns := some 10, connect := some 5, ssl := some 0,
    ttfb := some 100, receive := some 20, total := some 135 }

/-- A Mobile aggregate row with zero mean total and an all-absent ssl
column. -/
def aggM0 : AggRow :=
  { dns := some 4, connect := some 5, ssl := none,
    ttfb := some 50, receive := some 10, total := some 0 }

/-- The value lattice of a numpy `float64` division result, with finite
quotients abstracted to exact rationals. -/
inductive NpFloat where
  | fin (q : ℚ)
  | inf
  | negInf
  | nan
  deriving DecidableEq, Repr

/-- numpy `float64` division: a finite quotient when the denominator is
non-zero, otherwise the IEEE 754 rule (`x/0 = ±inf` by the sign of `x`,
`0/0 = nan`). -/
def npDiv (a b : ℚ) : NpFloat :=
  if b ≠ 0 then .fin (a / b)
  else if a > 0 then .inf
  else if a < 0 then .negInf
  else .nan

/-- The ratio line of `generate_description` in `src/app_old.py`:
`ratio = (max(total1, total2) / min(total1, total2))` — no zero guard. -/
def oldRatio (total1 total2 : ℚ) : NpFloat :=
  npDiv (max total1 total2) (min total1 total2)

/-- An entry carrying an Android User-Agent under an upper-cased header
name. -/
def eAndroidUA : RawEntry :=
  { url := "https://m.example.com/x"
    headers := [("USER-AGENT", "Mozilla/5.0 (Linux; Android 12)")]
    startedDateTime := 0
    time := 1
    timings := { dns := some 1, connect := some 1, ssl := some 1,
                 wait := some 1, receive := some 1 } }

/-- An entry with no User-Agent header at all. -/
def eNoUA : RawEntry :=
  { url := "https://example.com/y"
    headers := [("Accept", "text/html")]
    startedDateTime := 0
    time := 1
    timings := { dns := some 1, connect := some 1, ssl := some 1,
                 wait := some 1, receive := some 1 } }

/-- A well-formed HAR document holding one entry. -/
def harDoc : Json :=
  .jobj [("log", .jobj [("version", .jstr "1.2"),
                        ("entries", .jarr [.jobj [("time", .jnum 5)]])])]

/-- A valid JSON document that lacks the `log.entries` path. -/
def notHarDoc : Json :=
  .jobj [("data", .jarr [])]

/-- C1: `extract_metrics` does not apply one sentinel policy to all timing
components of a run: on an entry whose `dns` and `wait` phases both carry the
`-1` sentinel, the `dns` value is marked absent (`None`) while the `wait`
value is clamped to `0` — the clamp and absent policies are mixed within a
single run, so neither `clampPolicyRun` nor `absentPolicyRun` holds.
-/
theorem c1_mixed_sentinel_policy :
    rawTiming eMixed TComp.dns < 0 ∧
    rawTiming eMixed TComp.wait < 0 ∧
    extractedTiming eMixed TComp.dns = none ∧
    extractedTiming eMixed TComp.wait = some 0 ∧
    ¬ singlePolicyRun [eMixed] := by
  refine ⟨by decide, by decide, by decide, by decide, ?_⟩
  rintro (hc | ha)
  · exact absurd (hc eMixed (by decide) TComp.dns (by decide)) (by decide)
  · exact absurd (ha eMixed (by decide) TComp.wait (by decide)) (by decide)

/-- C2 counterexample: the claim fails as stated — the extractor copies the
entry-reported `time` into `total` unvalidated, so an entry reporting the
`-1` sentinel as its total elapsed time yields a record with `total < 0`
(and `total` is one of the six component columns, so the
"never negative after normalization" part fails too).
-/
theorem c2_counterexample :
    (extractRecord eNegTotal).total < 0 ∧
    extract_metrics [eNegTotal] = [extractRecord eNegTotal] := by
  exact ⟨by decide, rfl⟩

/-- C2 amended: for every raw entry whose reported total elapsed time is
non-negative, the produced record satisfies `total ≥ 0`,
`end_time = start_time + total` exactly, and every one of the six component
columns is either absent or a non-negative number.  (The `end_time`
equation needs no hypothesis; the non-negativity of `total` does, because
the code copies the reported time unvalidated.)
-/
theorem c2_record_invariants (e : RawEntry) (h : 0 ≤ e.time) :
    0 ≤ (extractRecord e).total ∧
    (extractRecord e).end_time
      = (extractRecord e).startedDateTime + (extractRecord e).total ∧
    ∀ c : Col, ∀ x : ℚ, recCol c (extractRecord e) = some x → 0 ≤ x := by
  refine ⟨h, rfl, ?_⟩
  intro c x hx
  cases c with
  | dns =>
      simp only [recCol, extractRecord] at hx
      split at hx
      · exact absurd hx (by simp)
      · rename_i hneg
        obtain rfl := Option.some.inj hx
        exact not_lt.mp hneg
  | connect =>
      simp only [recCol, extractRecord] at hx
      split at hx
      · exact absurd hx (by simp)
      · rename_i hneg
        obtain rfl := Option.some.inj hx
        exact not_lt.mp hneg
  | ssl =>
      simp only [recCol, extractRecord] at hx
      split at hx
      · exact absurd hx (by simp)
      · rename_i hneg
        obtain rfl := Option.some.inj hx
        exact not_lt.mp hneg
  | ttfb =>
      simp only [recCol, extractRecord] at hx
      obtain rfl := Option.some.inj hx
      exact le_max_right _ _
  | receive =>
      simp only [recCol, extractRecord] at hx
      obtain rfl := Option.some.inj hx
      exact le_max_right _ _
  | total =>
      simp only [recCol, extractRecord] at hx
      obtain rfl := Option.some.inj hx
      exact h

/-- C2 witness: the amended invariants, instantiated at a concrete entry
with a non-negative reported time. -/
theorem c2_record_invariants_witness :
    0 ≤ (extractRecord eClean).total ∧
    (extractRecord eClean).end_time
      = (extractRecord eClean).startedDateTime + (extractRecord eClean).total ∧
    ∀ c : Col, ∀ x : ℚ, recCol c (extractRecord eClean) = some x → 0 ≤ x :=
  c2_record_invariants eClean (by decide)

/-- C3 counterexample: the claim fails as stated — the comparison loop issues a
two-way verdict (`"Mobile" if diff > 0 else "Desktop"`), so an exact-zero
diff produces the very same outcome `"Desktop"` as a strictly negative
diff: a tie is not a distinct outcome.  Evaluated on a pair of identical
aggregate rows, every column yields diff `0` and verdict `"Desktop"`.
-/
theorem c3_counterexample :
    (describeCore aggEq aggEq).2 = allCols.map (fun c => (c, 0, "Desktop")) ∧
    verdictOfDiff 0 = verdictOfDiff (-1) := by
  constructor
  · simp only [describeCore, allCols, aggEq, diffOf, colVal, verdictOfDiff,
      List.filterMap_cons, List.filterMap_nil, List.map_cons, List.map_nil]
    norm_num
  · rfl

/-- C3 amended: for each shared numeric column present on both sides, the
comparator computes `diff = A[col] - B[col]` and a two-way verdict: B
(Mobile) is reported faster when `diff > 0`, and A (Desktop) is reported
faster when `diff ≤ 0` — exact-zero diffs are folded into the "A faster"
outcome rather than a distinct tie.
-/
theorem c3_two_way_verdict (desktop mobile : AggRow) (c : Col) (x : ℚ)
    (hx : diffOf desktop mobile c = some x) :
    (∃ d m, colVal c desktop = some d ∧ colVal c mobile = some m ∧ x = d - m) ∧
    (verdictOfDiff x = "Mobile" ↔ 0 < x) ∧
    (verdictOfDiff x = "Desktop" ↔ x ≤ 0) ∧
    (c, x, verdictOfDiff x) ∈ (describeCore desktop mobile).2 := by
  refine ⟨?_, ?_, ?_, ?_⟩
  · rcases hd : colVal c desktop with _ | d <;>
      rcases hm : colVal c mobile with _ | m <;>
      simp [diffOf, hd, hm] at hx
    exact ⟨d, m, rfl, rfl, hx.symm⟩
  · unfold verdictOfDiff
    split
    · next hpos => simpa using hpos
    · next hpos => simp only [not_lt] at hpos; simp; linarith
  · unfold verdictOfDiff
    split
    · next hpos => simp; linarith
    · next hpos => simpa using not_lt.mp hpos
  · exact List.mem_filterMap.mpr ⟨c, by cases c <;> decide, by rw [hx]; rfl⟩

/-- C3 witness: the amended description, instantiated on concrete aggregate
rows whose dns column differs by `-10` (Desktop faster). -/
theorem c3_two_way_verdict_witness :
    (∃ d m, colVal Col.dns aggEq = some d ∧
      colVal Col.dns aggEq2 = some m ∧ (-10 : ℚ) = d - m) ∧
    (verdictOfDiff (-10) = "Mobile" ↔ 0 < (-10 : ℚ)) ∧
    (verdictOfDiff (-10) = "Desktop" ↔ (-10 : ℚ) ≤ 0) ∧
    (Col.dns, (-10 : ℚ), verdictOfDiff (-10)) ∈ (describeCore aggEq aggEq2).2 :=
  c3_two_way_verdict aggEq aggEq2 Col.dns (-10)
    (by simp only [diffOf, colVal, aggEq, aggEq2]; norm_num)

/-- The pandas mean of a mapped column: when at least one cell is present,
it is the sum of the present cells divided by their count. -/
theorem meanOpt_map_eq (l : List TimingRecord) (f : TimingRecord → Option ℚ)
    (h : l.filterMap f ≠ []) :
    meanOpt (l.map f)
      = some ((l.filterMap f).sum / ((l.filterMap f).length : ℚ)) := by
  unfold meanOpt
  rw [List.filterMap_map, Function.id_comp]
  rw [if_neg (by simpa [List.length_eq_zero] using h)]

/-- C5: every column of a device's aggregate row is the arithmetic mean over
only the records where that column is present: absent (`None`) cells are
excluded from both the numerator and the denominator.
-/
theorem c5_mean_over_present (df : List TimingRecord) (dev : String) (c : Col)
    (h : (deviceGroup df dev).filterMap (recCol c) ≠ []) :
    colVal c (summaryFor df dev)
      = some (((deviceGroup df dev).filterMap (recCol c)).sum /
              ((((deviceGroup df dev).filterMap (recCol c)).length : ℚ))) := by
  cases c with
  | dns => exact meanOpt_map_eq _ _ h
  | connect => exact meanOpt_map_eq _ _ h
  | ssl => exact meanOpt_map_eq _ _ h
  | ttfb => exact meanOpt_map_eq _ _ h
  | receive => exact meanOpt_map_eq _ _ h
  | total => exact meanOpt_map_eq _ _ h

/-- C5 witness: a group holding one record with dns 10 ms and one record
with dns absent (reused) averages the dns column to 10, not 5. -/
theorem c5_mean_over_present_witness :
    colVal Col.dns (summaryFor (extract_metrics [eDnsTen, eDnsReused]) "Desktop")
      = some 10 := by
  have hdev : deviceTypeOf (userAgentOf ([] : List (String × String))) = "Desktop" := by
    decide
  have h := c5_mean_over_present (extract_metrics [eDnsTen, eDnsReused])
    "Desktop" Col.dns (by decide)
  rw [h]
  norm_num [extract_metrics, deviceGroup, extractRecord, eDnsTen, eDnsReused,
    recCol, tget, hdev, List.filter_cons, List.filterMap_cons]

/-- In `describe_comparison` of `src/app.py`, whenever the Mobile group's
mean total is exactly 0, the ratio is `NaN` (modelled `none`) while every
per-component diff with both sides present is still reported, with its
verdict. -/
theorem describe_ratio_none_of_zero_total (desktop mobile : AggRow)
    (h : mobile.total = some 0) :
    (describeCore desktop mobile).1 = none ∧
    ∀ c d m, colVal c desktop = some d → colVal c mobile = some m →
      (c, d - m, verdictOfDiff (d - m)) ∈ (describeCore desktop mobile).2 := by
  constructor
  · show ratioOf desktop mobile = none
    unfold ratioOf
    rw [h]
    rcases desktop.total with _ | d
    · rfl
    · norm_num
  · intro c d m hd hm
    have hdiff : diffOf desktop mobile c = some (d - m) := by
      simp [diffOf, hd, hm]
    exact List.mem_filterMap.mpr ⟨c, by cases c <;> decide, by rw [hdiff]; rfl⟩

/-- C6: at mean totals Desktop `135`, Mobile `0`, the legacy comparator
`generate_description` of `src/app_old.py` computes its ratio with no zero
guard and obtains `inf` — a computed, rendered value, not the undefined /
not-applicable marker (`nan`) the claim and spec require — whereas
`describe_comparison` of `src/app.py` yields the undefined marker (`none`)
at the analogous input while still reporting the dns diff. -/
theorem c6_old_ratio_computes_inf :
    oldRatio 135 0 = NpFloat.inf ∧
    NpFloat.inf ≠ NpFloat.nan ∧
    (describeCore aggD aggM0).1 = none ∧
    (Col.dns, (10 : ℚ) - 4, verdictOfDiff ((10 : ℚ) - 4))
      ∈ (describeCore aggD aggM0).2 := by
  refine ⟨?_, by decide, (describe_ratio_none_of_zero_total aggD aggM0 rfl).1,
    (describe_ratio_none_of_zero_total aggD aggM0 rfl).2 Col.dns 10 4 rfl rfl⟩
  norm_num [oldRatio, npDiv]

/-- C9: swapping the two aggregate rows exactly flips the sign of every
per-component difference: `compare(A,B).diff = -compare(B,A).diff`,
column by column (and a diff is skipped for A,B exactly when it is skipped
for B,A).
-/
theorem c9_diff_sign_flip (a b : AggRow) (c : Col) :
    diffOf a b c = (diffOf b a c).map (fun x => -x) := by
  rcases ha : colVal c a with _ | x <;> rcases hb : colVal c b with _ | y <;>
    simp [diffOf, ha, hb]

/-- The User-Agent search loop returns the value of the first header whose
name matches `"user-agent"` case-insensitively, and `""` when there is
none. -/
theorem userAgentOf_eq_find : ∀ hs : List (String × String),
    userAgentOf hs
      = ((hs.find? (fun h => lowerStr h.1 == "user-agent")).map
          (fun h => h.2)).getD ""
  | [] => rfl
  | (n, v) :: hs => by
      cases hq : (lowerStr n == "user-agent") with
      | true => simp [userAgentOf, List.find?, hq]
      | false => simp [userAgentOf, List.find?, hq, userAgentOf_eq_find hs]

/-- C7: with no external device label, an entry is classified `"Mobile"` exactly
when the value of its User-Agent request header — found by comparing
lowercased header names against `"user-agent"`, first match wins — contains
the substring `"Mobile"` or `"Android"`, and `"Desktop"` in every other
case; in particular an entry with no User-Agent header is classified
`"Desktop"`.
-/
theorem c7_device_classification (e : RawEntry) :
    ((extractRecord e).device = "Mobile" ↔
      (strHasSub (userAgentOf e.headers) "Mobile" = true ∨
       strHasSub (userAgentOf e.headers) "Android" = true)) ∧
    ((extractRecord e).device = "Mobile" ∨ (extractRecord e).device = "Desktop") ∧
    (userAgentOf e.headers
      = ((e.headers.find? (fun h => lowerStr h.1 == "user-agent")).map
          (fun h => h.2)).getD "") ∧
    (e.headers.find? (fun h => lowerStr h.1 == "user-agent") = none →
      (extractRecord e).device = "Desktop") := by
  have hdev : (extractRecord e).device = deviceTypeOf (userAgentOf e.headers) := rfl
  refine ⟨?_, ?_, userAgentOf_eq_find e.headers, ?_⟩
  · rw [hdev]
    unfold deviceTypeOf
    split
    · next hb => simpa using Bool.or_eq_true_iff.mp hb
    · next hb =>
        constructor
        · intro hcontra
          exact absurd hcontra (by decide)
        · intro hor
          exact absurd (Bool.or_eq_true_iff.mpr hor) hb
  · rw [hdev]
    unfold deviceTypeOf
    split
    · exact Or.inl rfl
    · exact Or.inr rfl
  · intro hnone
    rw [hdev, userAgentOf_eq_find e.headers, hnone]
    decide

/-- C7 witness: an Android User-Agent found under an upper-cased header name
classifies as Mobile; an entry with no User-Agent header classifies as
Desktop. -/
theorem c7_device_classification_witness :
    (extractRecord eAndroidUA).device = "Mobile" ∧
    (extractRecord eNoUA).device = "Desktop" :=
  ⟨(c7_device_classification eAndroidUA).1.mpr (Or.inr (by decide)),
   (c7_device_classification eNoUA).2.2.2 (by decide)⟩

/-- C8: the HAR loading step fails — with no partial result — exactly when the
byte stream is not valid JSON (`json.load` raises) or the parsed document
lacks the `log.entries` path (a dictionary subscript raises); otherwise it
returns the value found at `log.entries` unmodified.
-/
theorem c8_loader (input : Option Json) :
    (loadHar input = .error () ↔
      input = none ∨ ∃ j, input = some j ∧ logEntriesPath j = none) ∧
    (∀ j es, input = some j → logEntriesPath j = some es →
      loadHar input = .ok es) := by
  cases input with
  | none =>
      constructor
      · simp [loadHar]
      · intro j es hj
        exact absurd hj (by simp)
  | some j =>
      constructor
      · unfold loadHar
        rcases hl : objGet j "log" with _ | lg
        · simp [logEntriesPath, hl]
        · rcases he : objGet lg "entries" with _ | es <;>
            simp [logEntriesPath, hl, he]
      · intro j' es hj hpath
        obtain rfl := Option.some.inj hj
        unfold logEntriesPath at hpath
        rcases hl : objGet j "log" with _ | lg
        · rw [hl] at hpath
          exact absurd hpath (by simp)
        · rw [hl] at hpath
          simp only [Option.some_bind] at hpath
          simp [loadHar, hl, hpath]

/-- C8 witness: the loader returns the entries of a well-formed document
unmodified, and errors on an invalid stream and on a document without
`log.entries`. -/
theorem c8_loader_witness :
    loadHar (some harDoc) = .ok (.jarr [.jobj [("time", .jnum 5)]]) ∧
    loadHar none = .error () ∧
    loadHar (some notHarDoc) = .error () :=
  ⟨(c8_loader (some harDoc)).2 harDoc _ rfl rfl,
   (c8_loader none).1.mpr (Or.inl rfl),
   (c8_loader (some notHarDoc)).1.mpr (Or.inr ⟨notHarDoc, rfl, rfl⟩)⟩

/-- C10: `performance_score` is determined solely by the mean `m` of the
`total` column, through the fixed thresholds
`m ≤ 300 ↦ (95, "A")`, `300 < m ≤ 600 ↦ (85, "B")`,
`600 < m ≤ 1000 ↦ (70, "C")`, `1000 < m ≤ 2000 ↦ (55, "D")`,
else `(40, "E")`; the score is antitone in `m`.
-/
theorem c10_performance_score (m m' : ℚ) (df : List TimingRecord)
    (hmm : m ≤ m') :
    performance_score df = scoreOf (meanTotal df) ∧
    (m ≤ 300 → scoreOf m = (95, "A")) ∧
    (300 < m → m ≤ 600 → scoreOf m = (85, "B")) ∧
    (600 < m → m ≤ 1000 → scoreOf m = (70, "C")) ∧
    (1000 < m → m ≤ 2000 → scoreOf m = (55, "D")) ∧
    (2000 < m → scoreOf m = (40, "E")) ∧
    (scoreOf m').1 ≤ (scoreOf m).1 := by
  refine ⟨rfl, ?_, ?_, ?_, ?_, ?_, ?_⟩
  · intro h1
    rw [scoreOf, if_pos h1]
  · intro h1 h2
    rw [scoreOf, if_neg (by linarith), if_pos h2]
  · intro h1 h2
    rw [scoreOf, if_neg (by linarith), if_neg (by linarith), if_pos h2]
  · intro h1 h2
    rw [scoreOf, if_neg (by linarith), if_neg (by linarith),
      if_neg (by linarith), if_pos h2]
  · intro h1
    rw [scoreOf, if_neg (by linarith), if_neg (by linarith),
      if_neg (by linarith), if_neg (by linarith)]
  · unfold scoreOf
    split_ifs <;> first | decide | (exfalso; linarith)

/-- C10 witness: the thresholds and antitonicity instantiated at the means
450 and 1200. -/
theorem c10_performance_score_witness :
    performance_score [] = scoreOf (meanTotal []) ∧
    scoreOf (450 : ℚ) = (85, "B") ∧
    (scoreOf (1200 : ℚ)).1 ≤ (scoreOf (450 : ℚ)).1 :=
  ⟨(c10_performance_score 450 1200 [] (by norm_num)).1,
   (c10_performance_score 450 1200 [] (by norm_num)).2.2.1
     (by norm_num) (by norm_num),
   (c10_performance_score 450 1200 [] (by norm_num)).2.2.2.2.2.2⟩

end HARApp

